import Mathlib

/-!
Verification of the player-controller / physics core of the
FunnyPlatformGame repository.

The development shallowly embeds the two python controllers:

* `Main` — the enhanced ground-pound controller of `src/main/main.py`
  (class `Player`, class `GameConfig`, class `Platform`);
* `G3` — the responsive controller of `src/main/game003.py`
  (class `ResponsivePlayer`, class `InputBuffer`).

Conventions of the embedding:

* python floats are modelled as rationals (`ℚ`); `pygame.Rect`
  coordinates are integers, and the implicit float→int conversion of
  `pygame.Rect(...)` / `int(...)` (truncation toward zero) is modelled
  by `pytrunc`;
* `pygame.Rect.colliderect` is a strict-overlap test (touching edges do
  not collide), modelled by `IRect.collides`;
* `print` calls are no-ops; camera screen-shake, particle emission and
  animation bookkeeping are outbound feedback/rendering hooks with no
  influence on the simulated state, so they are not part of the state;
* the bullet and grenade collections are owned by external collections;
  throwing a grenade is modelled by its effect on the player's fields
  (`remaining_grenades`, `grenade_cooldown_timer`).
-/

namespace FunnyPlatform

/-- Truncation toward zero, the semantics of python `int(x)` and of the
float→int conversion done by `pygame.Rect`. -/
def pytrunc (q : ℚ) : ℤ :=
  if q < 0 then ⌈q⌉ else ⌊q⌋

/-- Python float modulo (the result has the sign of the divisor); used for
the horizontal world wrap `position.x % WORLD_WIDTH`. -/
def qmod (x m : ℚ) : ℚ :=
  x - m * ⌊x / m⌋

/-- Python `abs` on floats. -/
def pyabs (q : ℚ) : ℚ :=
  if q < 0 then -q else q

/-- `pygame.math.Vector2` restricted to the fields the controller uses. -/
structure Vec2 where
  x : ℚ
  y : ℚ
deriving DecidableEq

/-- An axis-aligned integer rectangle, as `pygame.Rect`. -/
structure IRect where
  left : ℤ
  top : ℤ
  w : ℤ
  h : ℤ
deriving DecidableEq

def IRect.right (r : IRect) : ℤ := r.left + r.w

def IRect.bottom (r : IRect) : ℤ := r.top + r.h

/-- `pygame.Rect.colliderect`: strict overlap, touching edges do not
count as a collision. -/
def IRect.collides (a b : IRect) : Bool :=
  decide (a.left < b.right ∧ a.right > b.left ∧ a.top < b.bottom ∧ a.bottom > b.top)

namespace Main

/-! ### `GameConfig` (src/main/main.py, lines 52-156) -/

def GROUND_ACCELERATION : ℚ := 1400
def GROUND_FRICTION : ℚ := 0.88
def GROUND_MAX_SPEED : ℚ := 240
def AIR_ACCELERATION : ℚ := 900
def AIR_FRICTION : ℚ := 0.97
def AIR_MAX_SPEED : ℚ := 220
def JUMP_STRENGTH : ℚ := -425
def DOUBLE_JUMP_STRENGTH : ℚ := -400
def GRAVITY : ℚ := 1150
def MAX_FALL_SPEED : ℚ := 520
def JUMP_CUT_MULTIPLIER : ℚ := 0.4
def MIN_JUMP_TIME : ℚ := 0.1
def COLLISION_TOLERANCE : ℚ := 1
def MAX_PENETRATION : ℚ := 2
def COYOTE_TIME : ℚ := 0.12
def JUMP_BUFFER : ℚ := 0.18
def WALL_SLIDE_SPEED : ℚ := 100
def WALL_JUMP_X_FORCE : ℚ := 280
def WALL_JUMP_Y_FORCE : ℚ := -380
def WALL_JUMP_MOMENTUM_TIME : ℚ := 0.2
def DASH_SPEED : ℚ := 380
def DASH_DURATION : ℚ := 0.15
def DASH_COOLDOWN : ℚ := 0.6
def DASH_INVINCIBILITY_TIME : ℚ := 0.25
def GROUND_POUND_SPEED : ℚ := 450
def GROUND_POUND_BOUNCE : ℚ := -180
def GROUND_POUND_MIN_HEIGHT : ℚ := 120
def GROUND_POUND_COOLDOWN : ℚ := 0.3
def GROUND_POUND_SUPER_BOUNCE_MULTIPLIER : ℚ := 1.5
def GROUND_POUND_SUPER_BOUNCE_BUFFER : ℚ := 0.2
def GROUND_POUND_MOMENTUM_BOOST : ℚ := 1.8
def GROUND_POUND_MAX_MOMENTUM : ℚ := 320
def WORLD_WIDTH : ℚ := 2400
def RESPAWN_Y_THRESHOLD : ℚ := 1000
def GRENADE_THROW_COOLDOWN : ℚ := 1

/-- A level platform (class `Platform`, main.py line 1841): an immutable
integer rectangle.  The color field is rendering-only and omitted. -/
structure Platform where
  left : ℤ
  top : ℤ
  width : ℤ
  height : ℤ
deriving DecidableEq

def Platform.right (p : Platform) : ℤ := p.left + p.width

def Platform.bottom (p : Platform) : ℤ := p.top + p.height

def Platform.toRect (p : Platform) : IRect := ⟨p.left, p.top, p.width, p.height⟩

/-- The movement-state enum (`MovementState`, main.py line 403). -/
inductive MovementState where
  | idle | running | jumping | falling | wall_sliding
  | dashing | ground_pounding | ledge_grabbing
deriving DecidableEq

/-- The `movement_input` dictionary stored by `_process_input`. -/
structure MoveInput where
  left : Bool
  right : Bool
  up : Bool
  down : Bool
  jump_pressed : Bool
  jump_held : Bool
  dash_pressed : Bool
deriving DecidableEq

def MoveInput.neutral : MoveInput := ⟨false, false, false, false, false, false, false⟩

/-- The per-tick input snapshot delivered by the input manager
(`is_held` / `is_pressed` per logical action). -/
structure Input where
  move_left : Bool
  move_right : Bool
  move_up : Bool
  move_down : Bool
  jump_pressed : Bool
  jump_held : Bool
  dash_pressed : Bool
  grenade_pressed : Bool
  ground_pound_pressed : Bool
deriving DecidableEq

def Input.neutral : Input :=
  ⟨false, false, false, false, false, false, false, false, false⟩

/-- The mutable state of class `Player` (main.py lines 434-499), restricted
to the simulation fields.  Rendering-only members (animation controller,
render scale, sprite data) are omitted; `collision_rect` is represented by
its integer centre (its size is the constant 32×48). -/
structure Player where
  position : Vec2
  spawn_position : Vec2
  rect_centerx : ℤ
  rect_centery : ℤ
  velocity : Vec2
  max_speed : ℚ
  is_on_ground : Bool
  was_on_ground : Bool
  standing_platform : Option Platform
  is_on_wall : Bool
  wall_direction : ℤ
  is_grabbing_ledge : Bool
  ledge_grab_timer : ℚ
  movement_locked : Bool
  stuck_detection_timer : ℚ
  jump_count : ℕ
  max_jumps : ℕ
  jump_time_remaining : ℚ
  can_cut_jump : Bool
  coyote_time_remaining : ℚ
  jump_buffer_timer : ℚ
  dash_timer : ℚ
  dash_cooldown_timer : ℚ
  dash_direction : Vec2
  is_invincible : Bool
  invincibility_timer : ℚ
  dash_jump_window_timer : ℚ
  wall_jump_momentum_timer : ℚ
  is_ground_pounding : Bool
  ground_pound_cooldown_timer : ℚ
  ground_pound_start_height : ℚ
  ground_pound_super_bounce_buffer : ℚ
  ground_pound_directional_input : Vec2
  current_state : MovementState
  previous_state : MovementState
  facing_right : Bool
  squash_stretch_scale : Vec2
  health : ℤ
  max_health : ℤ
  grenade_cooldown_timer : ℚ
  max_grenades : ℤ
  remaining_grenades : ℤ
  movement_input : MoveInput
deriving DecidableEq

/-- The player's collision width divided by 2 (`collision_rect.width // 2`). -/
def halfW : ℤ := 16

/-- The player's collision height divided by 2 (`collision_rect.height // 2`). -/
def halfH : ℤ := 24

/-- `Player.get_height_above_ground` (main.py lines 535-561): minimal
distance from the player to the top edge of a platform roughly below the
player (50-unit horizontal margin); `0` when no platform qualifies
(the `float('inf')` sentinel survives the scan). -/
def heightStep (pos : Vec2) (acc : Option ℚ) (p : Platform) : Option ℚ :=
  if pos.x ≥ (p.left : ℚ) - 50 ∧ pos.x ≤ (p.right : ℚ) + 50 ∧ pos.y ≤ (p.top : ℚ) then
    let distance : ℚ := (p.top : ℚ) - pos.y
    match acc with
    | none => some distance
    | some m => some (min m distance)
  else acc

def get_height_above_ground (pos : Vec2) (platforms : List Platform) : ℚ :=
  match platforms.foldl (heightStep pos) none with
  | none => 0
  | some m => m

/-- `Player._start_ground_pound` (main.py lines 692-703). -/
def startGroundPound (s : Player) : Player :=
  { s with
    is_ground_pounding := true
    ground_pound_start_height := s.position.y
    velocity := ⟨0, GROUND_POUND_SPEED⟩
    can_cut_jump := false
    dash_timer := 0 }

/-- `Player._try_start_ground_pound` (main.py lines 658-690): validation
gate for the ground pound; every failed precondition is a pure no-op
(the python code only prints a feedback message). -/
def tryStartGroundPound (s : Player) (platforms : List Platform) : Player :=
  if s.is_ground_pounding then s
  else if s.ground_pound_cooldown_timer > 0 then s
  else if s.is_on_ground then s
  else if get_height_above_ground s.position platforms < GROUND_POUND_MIN_HEIGHT then s
  else startGroundPound s

/-- `Player._handle_ground_pound_impact` (main.py lines 705-760).  The
camera screen-shake call is an outbound feedback hook and does not touch
the player state. -/
def handleGroundPoundImpact (s : Player) : Player :=
  if s.is_ground_pounding then
    let bounce_strength :=
      if s.ground_pound_super_bounce_buffer > 0 then
        GROUND_POUND_BOUNCE * GROUND_POUND_SUPER_BOUNCE_MULTIPLIER
      else GROUND_POUND_BOUNCE
    let vy := bounce_strength
    let vx :=
      if s.ground_pound_directional_input.x ≠ 0 ∨ s.ground_pound_directional_input.y ≠ 0 then
        let momentum := s.ground_pound_directional_input.x *
          GROUND_POUND_MOMENTUM_BOOST * GROUND_MAX_SPEED
        max (-GROUND_POUND_MAX_MOMENTUM) (min GROUND_POUND_MAX_MOMENTUM momentum)
      else s.velocity.x
    { s with
      velocity := ⟨vx, vy⟩
      is_ground_pounding := false
      ground_pound_cooldown_timer := GROUND_POUND_COOLDOWN
      ground_pound_super_bounce_buffer := 0
      squash_stretch_scale := ⟨1.4, 0.6⟩ }
  else s

/-- One timer step of `_update_timers`: timers only decrement while they
are strictly positive. -/
def decTimer (t dt : ℚ) : ℚ := if t > 0 then t - dt else t

/-- `Player._throw_grenade` (main.py lines 1140-1155): the spawned grenade
object lives in an external collection; the effect on the player is the
grenade count and the throw cooldown. -/
def throwGrenade (s : Player) : Player :=
  { s with remaining_grenades := s.remaining_grenades - 1
           grenade_cooldown_timer := GRENADE_THROW_COOLDOWN }

/-- `Player._process_input` (main.py lines 601-656). -/
def processInput (s : Player) (inp : Input) (platforms : List Platform) : Player :=
  let gx : ℚ := if inp.move_right then 1 else if inp.move_left then -1 else 0
  let s := { s with ground_pound_directional_input := ⟨gx, 0⟩ }
  let s := if inp.move_up ∧ s.movement_locked then
      { s with movement_locked := false, stuck_detection_timer := 0
               velocity := ⟨0, s.velocity.y⟩ }
    else s
  let s := if inp.grenade_pressed ∧ s.grenade_cooldown_timer ≤ 0 ∧
      s.remaining_grenades > 0 then throwGrenade s else s
  let s := if inp.ground_pound_pressed then tryStartGroundPound s platforms else s
  let s := if inp.jump_pressed ∧ s.is_ground_pounding then
      { s with ground_pound_super_bounce_buffer := GROUND_POUND_SUPER_BOUNCE_BUFFER }
    else s
  { s with movement_input :=
      ⟨inp.move_left, inp.move_right, inp.move_up, inp.move_down,
       inp.jump_pressed, inp.jump_held, inp.dash_pressed⟩ }

/-- `Player._update_timers` (main.py lines 762-787). -/
def updateTimers (s : Player) (dt : ℚ) : Player :=
  let s := { s with
    coyote_time_remaining := decTimer s.coyote_time_remaining dt
    jump_buffer_timer := decTimer s.jump_buffer_timer dt
    dash_timer := decTimer s.dash_timer dt
    dash_cooldown_timer := decTimer s.dash_cooldown_timer dt
    invincibility_timer := decTimer s.invincibility_timer dt
    dash_jump_window_timer := decTimer s.dash_jump_window_timer dt
    wall_jump_momentum_timer := decTimer s.wall_jump_momentum_timer dt
    jump_time_remaining := decTimer s.jump_time_remaining dt
    ledge_grab_timer := decTimer s.ledge_grab_timer dt
    grenade_cooldown_timer := decTimer s.grenade_cooldown_timer dt
    stuck_detection_timer := decTimer s.stuck_detection_timer dt
    ground_pound_cooldown_timer := decTimer s.ground_pound_cooldown_timer dt
    ground_pound_super_bounce_buffer := decTimer s.ground_pound_super_bounce_buffer dt }
  let s := if s.invincibility_timer ≤ 0 then { s with is_invincible := false } else s
  if pyabs s.velocity.x < 5 ∧ pyabs s.velocity.y < 5 ∧ ¬s.is_on_ground then
    let s := { s with stuck_detection_timer := s.stuck_detection_timer + dt }
    if s.stuck_detection_timer > 1 then { s with movement_locked := true } else s
  else s

/-- `Player._handle_ground_pound_movement` (main.py lines 811-826). -/
def handleGroundPoundMovement (s : Player) : Player :=
  let s := { s with velocity := ⟨s.velocity.x, GROUND_POUND_SPEED⟩ }
  if pyabs s.velocity.x > (50 : ℚ) then
    { s with velocity := ⟨s.velocity.x * 0.95, s.velocity.y⟩ }
  else s

/-- The trailing stuck-timer reset of `_handle_horizontal_movement`
(main.py lines 861-863). -/
def stuckResetStep (s : Player) : Player :=
  if pyabs s.velocity.x > (20 : ℚ) then { s with stuck_detection_timer := 0 } else s

/-- `Player._handle_horizontal_movement` (main.py lines 828-863). -/
def handleHorizontalMovement (s : Player) (move_left move_right : Bool) (dt : ℚ) :
    Player :=
  let acceleration := if s.is_on_ground then GROUND_ACCELERATION else AIR_ACCELERATION
  let friction := if s.is_on_ground then GROUND_FRICTION else AIR_FRICTION
  let s := if s.is_on_ground then { s with max_speed := GROUND_MAX_SPEED }
           else { s with max_speed := AIR_MAX_SPEED }
  let s :=
    if move_left ∧ ¬(s.wall_jump_momentum_timer > 0 ∧ s.wall_direction = 1) then
      let s :=
        if s.velocity.x > -s.max_speed then
          { s with velocity := ⟨max (s.velocity.x - acceleration * dt) (-s.max_speed),
                               s.velocity.y⟩ }
        else s
      { s with facing_right := false }
    else if move_right ∧ ¬(s.wall_jump_momentum_timer > 0 ∧ s.wall_direction = -1) then
      let s :=
        if s.velocity.x < s.max_speed then
          { s with velocity := ⟨min (s.velocity.x + acceleration * dt) s.max_speed,
                               s.velocity.y⟩ }
        else s
      { s with facing_right := true }
    else
      if pyabs s.velocity.x > (10 : ℚ) then
        { s with velocity := ⟨s.velocity.x * friction, s.velocity.y⟩ }
      else
        { s with velocity := ⟨0, s.velocity.y⟩ }
  stuckResetStep s

/-- `Player._handle_jumping` (main.py lines 865-919). -/
def handleJumping (s : Player) (jump_pressed jump_held : Bool) (_dt : ℚ) : Player :=
  let s := if jump_pressed then { s with jump_buffer_timer := JUMP_BUFFER } else s
  let s :=
    if s.is_on_ground then
      { s with jump_count := 0, coyote_time_remaining := COYOTE_TIME }
    else if s.coyote_time_remaining > 0 ∧ s.jump_count = 0 then
      { s with jump_count := 0 }
    else s
  let cjs : Bool × ℚ × Player :=
    if s.jump_buffer_timer > 0 then
      if s.is_on_ground ∨ s.coyote_time_remaining > 0 then
        (true, JUMP_STRENGTH, { s with jump_count := 1, coyote_time_remaining := 0 })
      else if s.jump_count < s.max_jumps ∧ ¬s.is_on_wall then
        (true, DOUBLE_JUMP_STRENGTH, { s with jump_count := s.jump_count + 1 })
      else if s.is_on_wall ∧ s.wall_direction ≠ 0 then
        (true, WALL_JUMP_Y_FORCE,
         { s with velocity := ⟨WALL_JUMP_X_FORCE * (-s.wall_direction : ℤ), s.velocity.y⟩
                  wall_jump_momentum_timer := WALL_JUMP_MOMENTUM_TIME
                  jump_count := 1
                  is_on_wall := false })
      else (false, 0, s)
    else (false, 0, s)
  let can_jump := cjs.1
  let jv₀ := cjs.2.1
  let s := cjs.2.2
  let bjs : ℚ × Player :=
    if can_jump ∧ s.dash_jump_window_timer > 0 then
      (jv₀ * 1.1,
       { s with velocity := ⟨s.velocity.x * 1.3, s.velocity.y⟩, dash_jump_window_timer := 0 })
    else (jv₀, s)
  let jump_velocity := bjs.1
  let s := bjs.2
  let s :=
    if can_jump then
      { s with velocity := ⟨s.velocity.x, jump_velocity⟩
               jump_buffer_timer := 0
               jump_time_remaining := MIN_JUMP_TIME
               can_cut_jump := true
               is_on_ground := false
               stuck_detection_timer := 0 }
    else s
  if ¬jump_held ∧ s.can_cut_jump ∧ s.jump_time_remaining ≤ 0 ∧ s.velocity.y < 0 then
    { s with velocity := ⟨s.velocity.x, s.velocity.y * JUMP_CUT_MULTIPLIER⟩
             can_cut_jump := false }
  else s

/-- `Player._apply_gravity` (main.py lines 921-929). -/
def applyGravity (s : Player) (dt : ℚ) : Player :=
  if ¬s.is_on_ground then
    let s :=
      if s.is_on_wall ∧ s.velocity.y > 0 then
        { s with velocity := ⟨s.velocity.x, min s.velocity.y WALL_SLIDE_SPEED⟩ }
      else
        { s with velocity := ⟨s.velocity.x, s.velocity.y + GRAVITY * dt⟩ }
    { s with velocity := ⟨s.velocity.x, min s.velocity.y MAX_FALL_SPEED⟩ }
  else s

/-- The IEEE-double value of 1/√2, the result of pygame's double-precision
`Vector2.normalize_ip` on a (±1, ±1) direction vector. -/
def invSqrt2 : ℚ := 6369051672525773 / 9007199254740992

/-- `Vector2.normalize_ip` as invoked by `_start_dash`: its argument is an
8-way direction vector (components in {-1, 0, 1}); axis-aligned vectors
have length 1 and are unchanged, diagonal ones are scaled by `invSqrt2`. -/
def normalize8 (v : Vec2) : Vec2 :=
  if v.x ≠ 0 ∧ v.y ≠ 0 then ⟨v.x * invSqrt2, v.y * invSqrt2⟩ else v

/-- `Player._start_dash` (main.py lines 931-956). -/
def startDash (s : Player) (left right up down : Bool) : Player :=
  let dx₀ : ℚ := if right then 1 else if left then -1 else 0
  let dy : ℚ := if down then 1 else if up then -1 else 0
  let dx : ℚ := if dx₀ = 0 ∧ dy = 0 then (if s.facing_right then 1 else -1) else dx₀
  let direction := normalize8 ⟨dx, dy⟩
  { s with dash_direction := direction
           velocity := ⟨direction.x * DASH_SPEED, direction.y * DASH_SPEED⟩
           dash_timer := DASH_DURATION
           dash_cooldown_timer := DASH_COOLDOWN
           is_invincible := true
           invincibility_timer := DASH_INVINCIBILITY_TIME
           dash_jump_window_timer := 0.25
           is_ground_pounding := false
           movement_locked := false
           stuck_detection_timer := 0 }

/-- `Player._handle_dash_movement` (main.py lines 958-959). -/
def handleDashMovement (s : Player) : Player :=
  { s with velocity := ⟨s.dash_direction.x * DASH_SPEED, s.dash_direction.y * DASH_SPEED⟩ }

/-- `Player._handle_ledge_grab_movement` (main.py lines 961-970). -/
def handleLedgeGrabMovement (s : Player) (move_up move_down : Bool) (dt : ℚ) : Player :=
  let s := { s with velocity := ⟨0, 0⟩ }
  if move_up then
    { s with position := ⟨s.position.x, s.position.y - 180 * dt⟩
             is_grabbing_ledge := false
             ledge_grab_timer := 0.2 }
  else if move_down then
    { s with is_grabbing_ledge := false, ledge_grab_timer := 0.2 }
  else s

/-- `Player._update_movement_and_physics` (main.py lines 789-809). -/
def updateMovementAndPhysics (s : Player) (dt : ℚ) : Player :=
  let inp := s.movement_input
  let s :=
    if s.dash_timer > 0 then handleDashMovement s
    else if s.is_ground_pounding then handleGroundPoundMovement s
    else if s.is_grabbing_ledge ∧ s.ledge_grab_timer ≤ 0 then
      handleLedgeGrabMovement s inp.up inp.down dt
    else
      applyGravity
        (handleJumping (handleHorizontalMovement s inp.left inp.right dt)
          inp.jump_pressed inp.jump_held dt) dt
  if inp.dash_pressed ∧ s.dash_cooldown_timer ≤ 0 then
    startDash s inp.left inp.right inp.up inp.down
  else s

/-- `Player._simple_ledge_check` (main.py lines 1129-1138). -/
def simpleLedgeCheck (s : Player) (p : Platform) : Player :=
  let ledge_check_distance : ℚ := (halfW : ℚ) + 8
  let ledge_check_x := s.position.x +
    (if s.facing_right then ledge_check_distance else -ledge_check_distance)
  if (s.facing_right ∧ ledge_check_x > (p.right : ℚ) + 3) ∨
     (¬s.facing_right ∧ ledge_check_x < (p.left : ℚ) - 3) then
    { s with is_grabbing_ledge := true, is_on_ground := false }
  else s

/-- The player's 32×48 collision box placed at float centre `(x, y)`; each
`pygame.Rect` coordinate is truncated to an integer. -/
def bodyRect (x y : ℚ) : IRect :=
  ⟨pytrunc (x - (halfW : ℚ)), pytrunc (y - (halfH : ℚ)), 32, 48⟩

/-- First platform in iteration order whose rectangle overlaps `r` (the
`for … if colliderect … break` pattern). -/
def firstHit (r : IRect) (platforms : List Platform) : Option Platform :=
  platforms.find? (fun p => r.collides p.toRect)

/-- The horizontal block of `Player._handle_collisions_improved`
(main.py lines 982-1013). -/
def horizontalPass (s : Player) (platforms : List Platform) (dt : ℚ) : Player :=
  if pyabs s.velocity.x > (0.1 : ℚ) then
    let new_x := qmod (s.position.x + s.velocity.x * dt) WORLD_WIDTH
    let temp := bodyRect new_x s.position.y
    match firstHit temp platforms with
    | some p =>
      if s.velocity.x > 0 then
        let s := { s with position :=
          ⟨(p.left : ℚ) - (halfW : ℚ) - COLLISION_TOLERANCE, s.position.y⟩ }
        let s := if s.dash_timer ≤ (0 : ℚ) then
            { s with velocity := ⟨0, s.velocity.y⟩ } else s
        { s with is_on_wall := true, wall_direction := 1 }
      else
        let s := { s with position :=
          ⟨(p.right : ℚ) + (halfW : ℚ) + COLLISION_TOLERANCE, s.position.y⟩ }
        let s := if s.dash_timer ≤ (0 : ℚ) then
            { s with velocity := ⟨0, s.velocity.y⟩ } else s
        { s with is_on_wall := true, wall_direction := -1 }
    | none => { s with position := ⟨new_x, s.position.y⟩ }
  else s

/-- The vertical block of `Player._handle_collisions_improved`
(main.py lines 1015-1056), including the ground-pound impact hook. -/
def verticalPass (s : Player) (platforms : List Platform) (dt : ℚ) : Player :=
  if pyabs s.velocity.y > (0.1 : ℚ) then
    let new_y := s.position.y + s.velocity.y * dt
    let temp := bodyRect s.position.x new_y
    match firstHit temp platforms with
    | some p =>
      if s.velocity.y > 0 then
        let s := { s with position := ⟨s.position.x, (p.top : ℚ) - (halfH : ℚ)⟩ }
        let s := if s.is_ground_pounding then handleGroundPoundImpact s
                 else { s with velocity := ⟨s.velocity.x, 0⟩ }
        let s := { s with is_on_ground := true, standing_platform := some p
                          stuck_detection_timer := 0 }
        if ¬s.was_on_ground ∧ ¬s.is_ground_pounding ∧ s.ledge_grab_timer ≤ 0 then
          simpleLedgeCheck s p
        else s
      else
        { s with position := ⟨s.position.x, (p.bottom : ℚ) + (halfH : ℚ)⟩
                 velocity := ⟨s.velocity.x, 0⟩
                 can_cut_jump := false }
    | none => { s with position := ⟨s.position.x, new_y⟩ }
  else s

/-- The thin ground-sensor block of `Player._handle_collisions_improved`
(main.py lines 1058-1081). -/
def groundSensorPass (s : Player) (platforms : List Platform) : Player :=
  if ¬s.is_on_ground then
    let sensor : IRect :=
      ⟨pytrunc (s.position.x - (halfW : ℚ)), pytrunc (s.position.y + (halfH : ℚ)), 32, 3⟩
    match firstHit sensor platforms with
    | some p =>
      let ground_y : ℚ := (p.top : ℚ) - (halfH : ℚ)
      if pyabs (s.position.y - ground_y) ≤ COLLISION_TOLERANCE then
        let s := { s with position := ⟨s.position.x, ground_y⟩ }
        let s := if s.is_ground_pounding then handleGroundPoundImpact s
                 else { s with velocity := ⟨s.velocity.x, 0⟩ }
        { s with is_on_ground := true, standing_platform := some p }
      else s
    | none => s
  else s

/-- The four overlap depths of the penetration-correction pass. -/
def minOverlap (pr : IRect) (p : Platform) : ℤ :=
  min (min (pr.right - p.left) (p.right - pr.left))
      (min (pr.bottom - p.top) (p.bottom - pr.top))

/-- `Player._fix_wall_penetration` (main.py lines 1086-1127): push the body
out of the first platform it overlaps by more than `MAX_PENETRATION`,
along the axis of minimal overlap. -/
def fixWallPenetration (s : Player) (platforms : List Platform) : Player :=
  let pr := bodyRect s.position.x s.position.y
  match platforms.find? (fun p => pr.collides p.toRect ∧ minOverlap pr p > 2) with
  | none => s
  | some p =>
    let ol := pr.right - p.left
    let orr := p.right - pr.left
    let ot := pr.bottom - p.top
    let m := minOverlap pr p
    if m = ol then
      { s with position := ⟨(p.left : ℚ) - (halfW : ℚ) - 1, s.position.y⟩
               velocity := ⟨min 0 s.velocity.x, s.velocity.y⟩ }
    else if m = orr then
      { s with position := ⟨(p.right : ℚ) + (halfW : ℚ) + 1, s.position.y⟩
               velocity := ⟨max 0 s.velocity.x, s.velocity.y⟩ }
    else if m = ot then
      let s := { s with position := ⟨s.position.x, (p.top : ℚ) - (halfH : ℚ) - 1⟩ }
      let s := if s.is_ground_pounding ∧ s.velocity.y > 0 then handleGroundPoundImpact s
               else { s with velocity := ⟨s.velocity.x, min 0 s.velocity.y⟩ }
      { s with is_on_ground := true, standing_platform := some p }
    else
      { s with position := ⟨s.position.x, (p.bottom : ℚ) + (halfH : ℚ) + 1⟩
               velocity := ⟨s.velocity.x, max 0 s.velocity.y⟩
               can_cut_jump := false }

/-- `Player._handle_collisions_improved` (main.py lines 972-1084). -/
def handleCollisionsImproved (s : Player) (platforms : List Platform) (dt : ℚ) :
    Player :=
  let s := { s with was_on_ground := s.is_on_ground, is_on_ground := false
                    is_on_wall := false, wall_direction := 0 }
  let s := horizontalPass s platforms dt
  let s := verticalPass s platforms dt
  let s := groundSensorPass s platforms
  fixWallPenetration s platforms

/-- `Player._update_movement_state` (main.py lines 1157-1181). -/
def updateMovementState (s : Player) : Player :=
  let st :=
    if s.dash_timer > 0 then MovementState.dashing
    else if s.is_ground_pounding then MovementState.ground_pounding
    else if s.is_grabbing_ledge then MovementState.ledge_grabbing
    else if s.is_on_wall ∧ ¬s.is_on_ground ∧ s.velocity.y > 0 then
      MovementState.wall_sliding
    else if ¬s.is_on_ground then
      if s.velocity.y < -100 then MovementState.jumping
      else if s.velocity.y > 100 then MovementState.falling
      else if s.previous_state = MovementState.jumping ∨
          s.previous_state = MovementState.falling then s.previous_state
      else if s.velocity.y < 0 then MovementState.jumping else MovementState.falling
    else if pyabs s.velocity.x > (50 : ℚ) then MovementState.running
    else MovementState.idle
  { s with current_state := st }

/-- `Player._update_visual_effects` (main.py lines 1183-1206). -/
def updateVisualEffects (s : Player) (dt : ℚ) : Player :=
  let target : Vec2 :=
    if s.is_on_ground ∧ s.velocity.y = 0 ∧ ¬s.was_on_ground then ⟨1.3, 0.7⟩
    else if s.velocity.y < -200 then ⟨0.8, 1.2⟩
    else if s.dash_timer > 0 then
      if pyabs s.velocity.x > pyabs s.velocity.y then ⟨1.4, 0.8⟩ else ⟨0.8, 1.4⟩
    else if s.is_ground_pounding then ⟨0.9, 1.3⟩
    else ⟨1, 1⟩
  let speed := 10 * dt
  { s with squash_stretch_scale :=
      ⟨s.squash_stretch_scale.x + (target.x - s.squash_stretch_scale.x) * speed,
       s.squash_stretch_scale.y + (target.y - s.squash_stretch_scale.y) * speed⟩ }

/-- `Player.respawn` (main.py lines 1208-1220). -/
def respawn (s : Player) : Player :=
  { s with position := s.spawn_position
           velocity := ⟨0, 0⟩
           health := s.max_health
           remaining_grenades := s.max_grenades
           is_on_ground := false
           is_ground_pounding := false
           dash_cooldown_timer := 0
           grenade_cooldown_timer := 0
           ground_pound_cooldown_timer := 0
           movement_locked := false
           stuck_detection_timer := 0 }

/-- `Player.update` (main.py lines 563-599): one simulation tick.  The
trailing animation-controller bookkeeping is rendering-side and omitted. -/
def update (dt : ℚ) (inp : Input) (platforms : List Platform) (s : Player) : Player :=
  let s := { s with position := ⟨qmod s.position.x WORLD_WIDTH, s.position.y⟩ }
  if s.position.y > RESPAWN_Y_THRESHOLD then respawn s
  else
    let s := { s with was_on_ground := s.is_on_ground, previous_state := s.current_state }
    let s := processInput s inp platforms
    let s := updateTimers s dt
    let s := if ¬s.movement_locked then updateMovementAndPhysics s dt else s
    let s := handleCollisionsImproved s platforms dt
    let s := { s with rect_centerx := pytrunc s.position.x
                      rect_centery := pytrunc s.position.y }
    let s := updateMovementState s
    updateVisualEffects s dt

end Main

namespace G3

/-! ### `src/main/game003.py` — the responsive controller
(`ResponsivePlayer`, `InputBuffer`).  Constants from lines 41-93. -/

def GRAVITY : ℚ := 1200
def MAX_FALL_SPEED : ℚ := 600
def WALL_SLIDE_SPEED : ℚ := 100
def WALL_JUMP_X_FORCE : ℚ := 200
def WALL_JUMP_Y_FORCE : ℚ := -350
def SCREEN_WIDTH : ℤ := 1600
def SCREEN_HEIGHT : ℤ := 900

/-- `class Platform` (game003.py line 327): an immutable integer rectangle. -/
structure Platform where
  left : ℤ
  top : ℤ
  width : ℤ
  height : ℤ
deriving DecidableEq

def Platform.right (p : Platform) : ℤ := p.left + p.width

def Platform.bottom (p : Platform) : ℤ := p.top + p.height

def Platform.toRect (p : Platform) : IRect := ⟨p.left, p.top, p.width, p.height⟩

/-- `class InputBuffer` (game003.py lines 290-322). -/
structure InputBuffer where
  jump_buffer : ℚ
  dash_buffer : ℚ
deriving DecidableEq

/-- `InputBuffer.consume_jump`: returns whether a jump was buffered and
clears the buffer when it was. -/
def InputBuffer.consumeJump (b : InputBuffer) : Bool × InputBuffer :=
  if b.jump_buffer > 0 then (true, { b with jump_buffer := 0 }) else (false, b)

/-- `InputBuffer.update` (game003.py lines 319-322). -/
def InputBuffer.step (b : InputBuffer) (dt : ℚ) : InputBuffer :=
  ⟨max 0 (b.jump_buffer - dt), max 0 (b.dash_buffer - dt)⟩

/-- The mutable state of `class ResponsivePlayer` (game003.py lines
346-392) restricted to the simulation fields: the bullet list lives in an
external projectile collection and the animation fields are
rendering-side, so both are omitted.  The collision `rect` is 32×48 and
represented by its integer top-left corner. -/
structure RPlayer where
  position : Vec2
  velocity : Vec2
  rect_left : ℤ
  rect_top : ℤ
  on_ground : Bool
  was_on_ground : Bool
  grounded_timer : ℚ
  on_wall : Bool
  wall_direction : ℤ
  wall_slide_timer : ℚ
  jumps_used : ℕ
  jump_held : Bool
  jump_held_time : ℚ
  dashing : Bool
  dash_timer : ℚ
  dash_direction : Vec2
  dash_cooldown : ℚ
  invulnerable : Bool
  iframe_timer : ℚ
  iframe_flash_timer : ℚ
  fire_cooldown : ℚ
  facing_direction : ℤ
  landed_this_frame : Bool
deriving DecidableEq

/-- The player's collision rectangle (32 wide, 48 tall). -/
def RPlayer.rect (s : RPlayer) : IRect := ⟨s.rect_left, s.rect_top, 32, 48⟩

/-- `ResponsivePlayer._move_and_collide` (game003.py lines 659-725):
per-axis integration, platform clamping, screen boundaries, the
bottom-of-screen ground, and wall detection. -/
def moveAndCollide (s : RPlayer) (platforms : List Platform) (dt : ℚ) : RPlayer :=
  -- horizontal movement
  let s := { s with position := ⟨s.position.x + s.velocity.x * dt, s.position.y⟩ }
  let s := { s with rect_left := pytrunc s.position.x - 16 }
  -- horizontal collisions (the loop visits every platform; after the first
  -- clamp velocity.x is 0 and later platforms leave the position alone)
  let s := platforms.foldl (fun (s : RPlayer) p =>
    if s.rect.collides p.toRect then
      let s :=
        if s.velocity.x > 0 then
          { s with rect_left := p.left - 32, position := ⟨(p.left : ℚ) - 16, s.position.y⟩ }
        else if s.velocity.x < 0 then
          { s with rect_left := p.right, position := ⟨(p.right : ℚ) + 16, s.position.y⟩ }
        else s
      { s with velocity := ⟨0, s.velocity.y⟩ }
    else s) s
  -- screen boundaries (horizontal)
  let s :=
    if s.rect_left < 0 then
      { s with rect_left := 0, position := ⟨16, s.position.y⟩, velocity := ⟨0, s.velocity.y⟩ }
    else if s.rect_left + 32 > SCREEN_WIDTH then
      { s with rect_left := SCREEN_WIDTH - 32
               position := ⟨(SCREEN_WIDTH : ℚ) - 16, s.position.y⟩
               velocity := ⟨0, s.velocity.y⟩ }
    else s
  -- vertical movement
  let s := { s with position := ⟨s.position.x, s.position.y + s.velocity.y * dt⟩ }
  let s := { s with rect_top := pytrunc s.position.y - 24 }
  -- reset ground and wall states
  let s := { s with on_ground := false, on_wall := false, wall_direction := 0 }
  -- vertical collisions
  let s := platforms.foldl (fun (s : RPlayer) p =>
    if s.rect.collides p.toRect then
      if s.velocity.y > 0 then
        { s with rect_top := p.top - 48
                 position := ⟨s.position.x, (p.top : ℚ) - 24⟩
                 velocity := ⟨s.velocity.x, 0⟩
                 on_ground := true }
      else if s.velocity.y < 0 then
        { s with rect_top := p.bottom
                 position := ⟨s.position.x, (p.bottom : ℚ) + 24⟩
                 velocity := ⟨s.velocity.x, 0⟩ }
      else s
    else s) s
  -- ground collision (bottom of screen), ground_level = SCREEN_HEIGHT - 50
  let s :=
    if s.rect_top + 48 ≥ SCREEN_HEIGHT - 50 then
      { s with rect_top := SCREEN_HEIGHT - 50 - 48
               position := ⟨s.position.x, (SCREEN_HEIGHT : ℚ) - 50 - 24⟩
               velocity := ⟨s.velocity.x, 0⟩
               on_ground := true }
    else s
  -- wall detection against the screen-edge wall columns
  if ¬s.on_ground ∧ ¬s.dashing then
    if s.rect_left ≤ 50 ∧ s.velocity.x ≤ 0 then
      { s with on_wall := true, wall_direction := -1 }
    else if s.rect_left + 32 ≥ SCREEN_WIDTH - 50 ∧ s.velocity.x ≥ 0 then
      { s with on_wall := true, wall_direction := 1 }
    else s
  else s

/-- The timer block of `ResponsivePlayer.update` (game003.py lines 572-578). -/
def timersStep (s : RPlayer) (dt : ℚ) : RPlayer :=
  { s with grounded_timer := s.grounded_timer + dt
           dash_timer := max 0 (s.dash_timer - dt)
           dash_cooldown := max 0 (s.dash_cooldown - dt)
           iframe_timer := max 0 (s.iframe_timer - dt)
           iframe_flash_timer := s.iframe_flash_timer + dt
           fire_cooldown := max 0 (s.fire_cooldown - dt) }

/-- Dash-state block of `ResponsivePlayer.update` (lines 580-584): on dash
end the velocity is halved, not zeroed. -/
def dashEndStep (s : RPlayer) : RPlayer :=
  if s.dashing ∧ s.dash_timer ≤ 0 then
    { s with dashing := false
             velocity := ⟨s.velocity.x * 0.5, s.velocity.y * 0.5⟩ }
  else s

/-- Invincibility block of `ResponsivePlayer.update` (lines 586-588). -/
def iframesStep (s : RPlayer) : RPlayer :=
  if s.iframe_timer ≤ 0 then { s with invulnerable := false } else s

/-- Gravity block of `ResponsivePlayer.update` (lines 590-598): falling
applies 1.5× gravity, clamped at `MAX_FALL_SPEED`. -/
def gravityStep (s : RPlayer) (dt : ℚ) : RPlayer :=
  if ¬s.dashing ∧ ¬s.on_ground then
    let gravity := if s.velocity.y > 0 then GRAVITY * 1.5 else GRAVITY
    { s with velocity := ⟨s.velocity.x, min (s.velocity.y + gravity * dt) MAX_FALL_SPEED⟩ }
  else s

/-- Wall-slide block of `ResponsivePlayer.update` (lines 600-613). -/
def wallSlideStep (s : RPlayer) (dt : ℚ) : RPlayer :=
  if s.on_wall ∧ ¬s.on_ground ∧ s.velocity.y > 0 ∧ ¬s.dashing then
    { s with velocity := ⟨s.velocity.x, min s.velocity.y WALL_SLIDE_SPEED⟩
             wall_slide_timer := s.wall_slide_timer + dt }
  else { s with wall_slide_timer := 0 }

/-- Wall-jump block of `ResponsivePlayer.update` (lines 615-621):
`self.on_wall and input_buffer.consume_jump() and not self.dashing`
short-circuits, so the jump buffer is consumed whenever `on_wall` holds,
even when the jump is then blocked by `dashing`. -/
def wallJumpStep (s : RPlayer) (buf : InputBuffer) : RPlayer × InputBuffer :=
  if s.on_wall then
    let cb := buf.consumeJump
    if cb.1 ∧ ¬s.dashing then
      ({ s with velocity := ⟨(-s.wall_direction : ℤ) * WALL_JUMP_X_FORCE, WALL_JUMP_Y_FORCE⟩
                jumps_used := 1 }, cb.2)
    else (s, cb.2)
  else (s, buf)

/-- Landing-detection block of `ResponsivePlayer.update` (lines 627-639):
a transition from airborne to grounded resets the jump count and the
coyote timer. -/
def landingStep (s : RPlayer) : RPlayer :=
  if s.on_ground ∧ ¬s.was_on_ground then
    { s with landed_this_frame := true, jumps_used := 0, grounded_timer := 0 }
  else { s with landed_this_frame := false }

/-- `ResponsivePlayer.update` (game003.py lines 569-657): timers, dash
end, gravity with fast fall, wall slide, wall jumping (which consumes the
jump buffer), movement/collision, and landing detection.  Particle
emission, screen shake and animation are outbound feedback hooks and the
bullet list is an external collection; both are omitted. -/
def update (dt : ℚ) (platforms : List Platform) (buf : InputBuffer) (s : RPlayer) :
    RPlayer × InputBuffer :=
  let s := timersStep s dt
  let s := dashEndStep s
  let s := iframesStep s
  let s := gravityStep s dt
  let s := wallSlideStep s dt
  let sb := wallJumpStep s buf
  let s := { sb.1 with was_on_ground := sb.1.on_ground }
  let s := moveAndCollide s platforms dt
  let s := landingStep s
  (s, sb.2.step dt)

end G3

namespace Main

/-! ### Concrete states and inputs used in the scenario theorems -/

/-- A freshly constructed player (`Player.__init__`, main.py lines
434-503) at spawn `(sx, sy)`: the initial `collision_rect` is
`pygame.Rect(spawn_x, spawn_y, 32, 48)`, so its centre sits at the spawn
point plus half the box size. -/
def initPlayer (sx sy : ℚ) : Player where
  position := ⟨sx, sy⟩
  spawn_position := ⟨sx, sy⟩
  rect_centerx := pytrunc sx + halfW
  rect_centery := pytrunc sy + halfH
  velocity := ⟨0, 0⟩
  max_speed := GROUND_MAX_SPEED
  is_on_ground := false
  was_on_ground := false
  standing_platform := none
  is_on_wall := false
  wall_direction := 0
  is_grabbing_ledge := false
  ledge_grab_timer := 0
  movement_locked := false
  stuck_detection_timer := 0
  jump_count := 0
  max_jumps := 2
  jump_time_remaining := 0
  can_cut_jump := false
  coyote_time_remaining := 0
  jump_buffer_timer := 0
  dash_timer := 0
  dash_cooldown_timer := 0
  dash_direction := ⟨0, 0⟩
  is_invincible := false
  invincibility_timer := 0
  dash_jump_window_timer := 0
  wall_jump_momentum_timer := 0
  is_ground_pounding := false
  ground_pound_cooldown_timer := 0
  ground_pound_start_height := 0
  ground_pound_super_bounce_buffer := 0
  ground_pound_directional_input := ⟨0, 0⟩
  current_state := MovementState.idle
  previous_state := MovementState.idle
  facing_right := true
  squash_stretch_scale := ⟨1, 1⟩
  health := 100
  max_health := 100
  grenade_cooldown_timer := 0
  max_grenades := 3
  remaining_grenades := 3
  movement_input := MoveInput.neutral

/-- A wide floor platform with its top edge at `y = 500`. -/
def groundPlat : Platform := ⟨0, 500, 2400, 100⟩

/-- A narrow platform whose right edge (at `x = 190`) can be overhung. -/
def ledgePlat : Platform := ⟨100, 500, 90, 50⟩

/-- A wall-like obstacle with left edge at `x = 310`. -/
def wallPlat : Platform := ⟨310, 400, 100, 200⟩

/-- Input snapshot: jump pressed (and held) this tick. -/
def jumpInput : Input := { Input.neutral with jump_pressed := true, jump_held := true }

/-- Input snapshot: dash pressed this tick. -/
def dashInput : Input := { Input.neutral with dash_pressed := true }

/-- A player at rest standing exactly on `groundPlat` at `x` (the scenario
start state of the jump test), with the coyote window fresh as it is after
any grounded tick. -/
def jumpRest (x : ℤ) : Player :=
  { initPlayer (x : ℚ) 476 with
      is_on_ground := true
      was_on_ground := true
      standing_platform := some groundPlat
      coyote_time_remaining := COYOTE_TIME }

/-- The rest state at `x = 400`. -/
def restOnGround : Player := jumpRest 400

/-- The rest state with leftover horizontal velocity 100. -/
def frictionState : Player := { restOnGround with velocity := ⟨100, 0⟩ }

/-- The rest state with the collision-rect centre synchronised with the
position (as it is after any completed tick). -/
def zeroDtRest : Player :=
  { restOnGround with rect_centerx := 400, rect_centery := 476 }

/-- A player falling (velocity (0, 300)) just above the right edge of
`ledgePlat`, facing right. -/
def fallState : Player := { initPlayer 170 474 with velocity := ⟨0, 300⟩ }

/-- A player at `x = 290` moving right at speed 380 toward `wallPlat`. -/
def movingRightState : Player := { initPlayer 290 500 with velocity := ⟨380, 0⟩ }

/-- A player mid-dash (dash timer and invincibility running). -/
def midDashState : Player :=
  { initPlayer 100 100 with
      dash_timer := DASH_DURATION
      velocity := ⟨DASH_SPEED, 0⟩
      is_invincible := true
      invincibility_timer := DASH_INVINCIBILITY_TIME }

/-- An airborne player 200 world units above `groundPlat`. -/
def gpAirState : Player := initPlayer 400 300

end Main

namespace G3

/-- A freshly constructed responsive player
(`ResponsivePlayer.__init__`, game003.py lines 346-392) at `(x, y)`. -/
def initRPlayer (x y : ℚ) : RPlayer where
  position := ⟨x, y⟩
  velocity := ⟨0, 0⟩
  rect_left := pytrunc x - 16
  rect_top := pytrunc y - 24
  on_ground := false
  was_on_ground := false
  grounded_timer := 0
  on_wall := false
  wall_direction := 0
  wall_slide_timer := 0
  jumps_used := 0
  jump_held := false
  jump_held_time := 0
  dashing := false
  dash_timer := 0
  dash_direction := ⟨0, 0⟩
  dash_cooldown := 0
  invulnerable := false
  iframe_timer := 0
  iframe_flash_timer := 0
  fire_cooldown := 0
  facing_direction := 1
  landed_this_frame := false

/-- A responsive player falling at speed 300 just above the
bottom-of-screen ground, having used both jumps. -/
def g3FallState : RPlayer :=
  { initRPlayer 800 840 with velocity := ⟨0, 300⟩, jumps_used := 2, grounded_timer := 5 }

end G3


/-! ## Theorems -/

namespace Main

/-- Helper: the accumulator survives `get_height_above_ground`'s scan when
no platform qualifies. -/
theorem height_fold_none (pos : Vec2) (platforms : List Platform)
    (h : ∀ p ∈ platforms,
      ¬(pos.x ≥ (p.left : ℚ) - 50 ∧ pos.x ≤ (p.right : ℚ) + 50 ∧ pos.y ≤ (p.top : ℚ))) :
    get_height_above_ground pos platforms = 0 := by
  have hfold : ∀ (l : List Platform),
      (∀ p ∈ l, ¬(pos.x ≥ (p.left : ℚ) - 50 ∧ pos.x ≤ (p.right : ℚ) + 50 ∧
        pos.y ≤ (p.top : ℚ))) →
      ∀ acc, l.foldl (heightStep pos) acc = acc := by
    intro l
    induction l with
    | nil => intro _ acc; rfl
    | cons p ps ih =>
      intro hl acc
      have hp := hl p (List.mem_cons_self p ps)
      have hstep : heightStep pos acc p = acc := by
        unfold heightStep
        rw [if_neg hp]
      rw [List.foldl_cons, hstep]
      exact ih (fun q hq => hl q (List.mem_cons_of_mem p hq)) acc
  unfold get_height_above_ground
  rw [hfold platforms h none]

/-- C1: in any state that is airborne, not already ground-pounding, with
the ground-pound cooldown elapsed and measured height above ground at
least `GROUND_POUND_MIN_HEIGHT`, the ground-pound press sets `velocity.y`
to exactly `GROUND_POUND_SPEED` and zeroes `velocity.x`; and the
floor-contact impact while still ground-pounding sets `velocity.y` to
exactly `GROUND_POUND_BOUNCE`, or to
`GROUND_POUND_BOUNCE * GROUND_POUND_SUPER_BOUNCE_MULTIPLIER` when the
super-bounce jump buffer is still running. -/
theorem ground_pound_trigger_and_bounce (s : Player) (platforms : List Platform)
    (hair : s.is_on_ground = false) (hnot : s.is_ground_pounding = false)
    (hcool : s.ground_pound_cooldown_timer ≤ 0)
    (hheight : GROUND_POUND_MIN_HEIGHT ≤ get_height_above_ground s.position platforms) :
    ((tryStartGroundPound s platforms).velocity.y = GROUND_POUND_SPEED ∧
     (tryStartGroundPound s platforms).velocity.x = 0 ∧
     (tryStartGroundPound s platforms).is_ground_pounding = true) ∧
    ∀ t : Player, t.is_ground_pounding = true →
      (t.ground_pound_super_bounce_buffer ≤ 0 →
        (handleGroundPoundImpact t).velocity.y = GROUND_POUND_BOUNCE) ∧
      (0 < t.ground_pound_super_bounce_buffer →
        (handleGroundPoundImpact t).velocity.y
          = GROUND_POUND_BOUNCE * GROUND_POUND_SUPER_BOUNCE_MULTIPLIER) := by
  have h1 : ¬(s.ground_pound_cooldown_timer > 0) := not_lt.mpr hcool
  have h2 : ¬(get_height_above_ground s.position platforms < GROUND_POUND_MIN_HEIGHT) :=
    not_lt.mpr hheight
  have hmain : tryStartGroundPound s platforms = startGroundPound s := by
    simp [tryStartGroundPound, hnot, hair, h1, h2]
  refine ⟨by rw [hmain]; exact ⟨rfl, rfl, rfl⟩, ?_⟩
  intro t ht
  constructor
  · intro hb
    have hb2 : ¬(t.ground_pound_super_bounce_buffer > 0) := not_lt.mpr hb
    simp [handleGroundPoundImpact, ht, hb2]
  · intro hb
    simp [handleGroundPoundImpact, ht, hb]

/-- C1 witness: an airborne player 200 units above the floor. -/
theorem ground_pound_trigger_and_bounce_witness :
    ((tryStartGroundPound gpAirState [groundPlat]).velocity.y = GROUND_POUND_SPEED ∧
     (tryStartGroundPound gpAirState [groundPlat]).velocity.x = 0 ∧
     (tryStartGroundPound gpAirState [groundPlat]).is_ground_pounding = true) ∧
    ∀ t : Player, t.is_ground_pounding = true →
      (t.ground_pound_super_bounce_buffer ≤ 0 →
        (handleGroundPoundImpact t).velocity.y = GROUND_POUND_BOUNCE) ∧
      (0 < t.ground_pound_super_bounce_buffer →
        (handleGroundPoundImpact t).velocity.y
          = GROUND_POUND_BOUNCE * GROUND_POUND_SUPER_BOUNCE_MULTIPLIER) :=
  ground_pound_trigger_and_bounce gpAirState [groundPlat] rfl rfl
    (by norm_num [gpAirState, initPlayer])
    (by norm_num [get_height_above_ground, heightStep, gpAirState, initPlayer, groundPlat,
      Platform.right, GROUND_POUND_MIN_HEIGHT, List.foldl])

/-- C2: a ground-pound attempt that fails a precondition (too low, on the
ground, or cooldown still running) is a pure no-op: the whole player state
is returned unchanged and `is_ground_pounding` stays false; the validator
is a total function, so no error can be raised. -/
theorem ground_pound_precondition_noop (s : Player) (platforms : List Platform)
    (hnot : s.is_ground_pounding = false)
    (h : get_height_above_ground s.position platforms < GROUND_POUND_MIN_HEIGHT ∨
         s.is_on_ground = true ∨ 0 < s.ground_pound_cooldown_timer) :
    tryStartGroundPound s platforms = s ∧
    (tryStartGroundPound s platforms).is_ground_pounding = false := by
  have hm : tryStartGroundPound s platforms = s := by
    unfold tryStartGroundPound
    split_ifs with h1 h2 h3 h4
    · rfl
    · rfl
    · rfl
    · rfl
    · exfalso
      rcases h with hh | hh | hh
      · exact h4 hh
      · exact h3 hh
      · exact h2 hh
  exact ⟨hm, by rw [hm]; exact hnot⟩

/-- C2 witness: a grounded player over an empty platform set. -/
theorem ground_pound_precondition_noop_witness :
    tryStartGroundPound restOnGround [] = restOnGround ∧
    (tryStartGroundPound restOnGround []).is_ground_pounding = false :=
  ground_pound_precondition_noop restOnGround [] rfl
    (Or.inl (by norm_num [get_height_above_ground, heightStep, List.foldl,
      GROUND_POUND_MIN_HEIGHT]))

/-- Helper: the stuck-timer reset leaves the velocity alone. -/
theorem stuckResetStep_velocity (t : Player) :
    (stuckResetStep t).velocity.x = t.velocity.x := by
  unfold stuckResetStep
  split_ifs <;> rfl

set_option maxHeartbeats 1000000 in
/-- C3 (amended): the claimed invariant `|velocity.x| ≤ max_speed` after
every tick fails (see the dash counterexample); what the normal
horizontal-movement handler does guarantee is that it never pushes the
horizontal speed beyond the larger of the incoming speed and the active
surface cap (`GROUND_MAX_SPEED` on the ground, `AIR_MAX_SPEED` in the
air): input acceleration is clamped at the cap and friction only shrinks
the speed. -/
theorem horizontal_movement_bounds_speed (s : Player) (l r : Bool) (dt : ℚ)
    (hdt : 0 ≤ dt) :
    pyabs (handleHorizontalMovement s l r dt).velocity.x ≤
      max (pyabs s.velocity.x)
        (if s.is_on_ground then GROUND_MAX_SPEED else AIR_MAX_SPEED) := by
  unfold handleHorizontalMovement
  rw [stuckResetStep_velocity]
  by_cases hg : s.is_on_ground = true <;>
    simp only [hg, Bool.false_eq_true, eq_self_iff_true, if_true, if_false,
      ite_true, ite_false] <;>
    split_ifs <;>
    dsimp only <;>
    (unfold pyabs
     simp only [GROUND_ACCELERATION, AIR_ACCELERATION, GROUND_MAX_SPEED, AIR_MAX_SPEED,
       GROUND_FRICTION, AIR_FRICTION, max_def, min_def]
     split_ifs <;> linarith)

/-- C3 witness for the amended bound: leftover speed 100 on the ground,
no input, one 60 Hz tick. -/
theorem horizontal_movement_bounds_speed_witness :
    pyabs (handleHorizontalMovement frictionState false false (1/60)).velocity.x ≤
      max (pyabs frictionState.velocity.x)
        (if frictionState.is_on_ground then GROUND_MAX_SPEED else AIR_MAX_SPEED) :=
  horizontal_movement_bounds_speed frictionState false false (1/60) (by norm_num)

/-- C3 counterexample: from rest on the floor, pressing dash leaves the
player with horizontal velocity `DASH_SPEED = 380` at the end of the tick
while still grounded, exceeding both `GROUND_MAX_SPEED = 240` and
`AIR_MAX_SPEED = 220` — the per-tick clamping invariant is false. -/
theorem dash_tick_velocity_exceeds_cap :
    (update (1/60) dashInput [groundPlat] restOnGround).is_on_ground = true ∧
    GROUND_MAX_SPEED < (update (1/60) dashInput [groundPlat] restOnGround).velocity.x ∧
    AIR_MAX_SPEED < (update (1/60) dashInput [groundPlat] restOnGround).velocity.x := by
  norm_num [update, processInput, tryStartGroundPound, get_height_above_ground, heightStep,
    throwGrenade,
    updateTimers, decTimer, updateMovementAndPhysics, handleDashMovement,
    handleGroundPoundMovement, handleLedgeGrabMovement, handleHorizontalMovement,
    stuckResetStep,
    handleJumping, applyGravity, startDash, normalize8, invSqrt2,
    handleCollisionsImproved, horizontalPass, verticalPass, groundSensorPass,
    fixWallPenetration, minOverlap, firstHit, simpleLedgeCheck, handleGroundPoundImpact,
    startGroundPound, updateMovementState, updateVisualEffects, respawn, bodyRect,
    pytrunc, qmod, pyabs, IRect.collides, IRect.right, IRect.bottom, Platform.toRect,
    Platform.right, Platform.bottom, halfW, halfH, GROUND_ACCELERATION, GROUND_FRICTION,
    GROUND_MAX_SPEED, AIR_ACCELERATION, AIR_FRICTION, AIR_MAX_SPEED, JUMP_STRENGTH,
    DOUBLE_JUMP_STRENGTH, GRAVITY, MAX_FALL_SPEED, JUMP_CUT_MULTIPLIER, MIN_JUMP_TIME,
    COLLISION_TOLERANCE, MAX_PENETRATION, COYOTE_TIME, JUMP_BUFFER, WALL_SLIDE_SPEED,
    WALL_JUMP_X_FORCE, WALL_JUMP_Y_FORCE, WALL_JUMP_MOMENTUM_TIME, DASH_SPEED,
    DASH_DURATION, DASH_COOLDOWN, DASH_INVINCIBILITY_TIME, GROUND_POUND_SPEED,
    GROUND_POUND_BOUNCE, GROUND_POUND_MIN_HEIGHT, GROUND_POUND_COOLDOWN,
    GROUND_POUND_SUPER_BOUNCE_MULTIPLIER, GROUND_POUND_SUPER_BOUNCE_BUFFER,
    GROUND_POUND_MOMENTUM_BOOST, GROUND_POUND_MAX_MOMENTUM, WORLD_WIDTH,
    RESPAWN_Y_THRESHOLD, GRENADE_THROW_COOLDOWN, initPlayer, groundPlat, ledgePlat,
    wallPlat, jumpInput, dashInput, jumpRest, restOnGround, frictionState, zeroDtRest,
    fallState, movingRightState, midDashState, gpAirState, Input.neutral,
    MoveInput.neutral, List.find?, List.foldl, min_def, max_def]

/-- C4 (amended): dash and ground pound are mutually cancelling — starting
a dash clears `is_ground_pounding` and starting a ground pound zeroes the
dash timer, so the two are never active together right after either
start — but neither start clears `is_grabbing_ledge`, so ledge grab can
overlap them. -/
theorem dash_pound_cancel_each_other (s : Player) (l r u d : Bool) :
    ((startDash s l r u d).is_ground_pounding = false ∧
     0 < (startDash s l r u d).dash_timer) ∧
    ((startGroundPound s).dash_timer = 0 ∧
     (startGroundPound s).is_ground_pounding = true) ∧
    (startDash s l r u d).is_grabbing_ledge = s.is_grabbing_ledge ∧
    (startGroundPound s).is_grabbing_ledge = s.is_grabbing_ledge := by
  refine ⟨⟨rfl, ?_⟩, ⟨rfl, rfl⟩, rfl, rfl⟩
  show (0:ℚ) < DASH_DURATION
  norm_num [DASH_DURATION]

/-- C4 counterexample: a falling player lands overhanging `ledgePlat`'s
right edge and grabs the ledge (tick 1); pressing dash on the next tick
starts the dash without clearing the ledge grab, so at the end of tick 2
`dash_timer > 0` and `is_grabbing_ledge` hold together — the mutual
exclusion invariant is violated in a reachable state. -/
theorem dash_while_ledge_grab_reachable :
    (0 : ℚ) < (update (1/60) dashInput [ledgePlat]
        (update (1/60) Input.neutral [ledgePlat] fallState)).dash_timer ∧
    (update (1/60) dashInput [ledgePlat]
        (update (1/60) Input.neutral [ledgePlat] fallState)).is_grabbing_ledge = true ∧
    (update (1/60) Input.neutral [ledgePlat] fallState).is_grabbing_ledge = true := by
  norm_num [update, processInput, tryStartGroundPound, get_height_above_ground, heightStep,
    throwGrenade,
    updateTimers, decTimer, updateMovementAndPhysics, handleDashMovement,
    handleGroundPoundMovement, handleLedgeGrabMovement, handleHorizontalMovement,
    stuckResetStep,
    handleJumping, applyGravity, startDash, normalize8, invSqrt2,
    handleCollisionsImproved, horizontalPass, verticalPass, groundSensorPass,
    fixWallPenetration, minOverlap, firstHit, simpleLedgeCheck, handleGroundPoundImpact,
    startGroundPound, updateMovementState, updateVisualEffects, respawn, bodyRect,
    pytrunc, qmod, pyabs, IRect.collides, IRect.right, IRect.bottom, Platform.toRect,
    Platform.right, Platform.bottom, halfW, halfH, GROUND_ACCELERATION, GROUND_FRICTION,
    GROUND_MAX_SPEED, AIR_ACCELERATION, AIR_FRICTION, AIR_MAX_SPEED, JUMP_STRENGTH,
    DOUBLE_JUMP_STRENGTH, GRAVITY, MAX_FALL_SPEED, JUMP_CUT_MULTIPLIER, MIN_JUMP_TIME,
    COLLISION_TOLERANCE, MAX_PENETRATION, COYOTE_TIME, JUMP_BUFFER, WALL_SLIDE_SPEED,
    WALL_JUMP_X_FORCE, WALL_JUMP_Y_FORCE, WALL_JUMP_MOMENTUM_TIME, DASH_SPEED,
    DASH_DURATION, DASH_COOLDOWN, DASH_INVINCIBILITY_TIME, GROUND_POUND_SPEED,
    GROUND_POUND_BOUNCE, GROUND_POUND_MIN_HEIGHT, GROUND_POUND_COOLDOWN,
    GROUND_POUND_SUPER_BOUNCE_MULTIPLIER, GROUND_POUND_SUPER_BOUNCE_BUFFER,
    GROUND_POUND_MOMENTUM_BOOST, GROUND_POUND_MAX_MOMENTUM, WORLD_WIDTH,
    RESPAWN_Y_THRESHOLD, GRENADE_THROW_COOLDOWN, initPlayer, groundPlat, ledgePlat,
    wallPlat, jumpInput, dashInput, jumpRest, restOnGround, frictionState, zeroDtRest,
    fallState, movingRightState, midDashState, gpAirState, Input.neutral,
    MoveInput.neutral, List.find?, List.foldl, min_def, max_def]

/-- C6 counterexample: in the scripted scenario (rest on the floor, jump
pressed) the tick ends with `velocity.y = JUMP_STRENGTH + GRAVITY * dt`,
not exactly `JUMP_STRENGTH`: gravity integrates in the same tick right
after the jump executes. -/
theorem jump_tick_not_exactly_jump_strength :
    (update (1/60) jumpInput [groundPlat] restOnGround).jump_count = 1 ∧
    (update (1/60) jumpInput [groundPlat] restOnGround).is_on_ground = false ∧
    (update (1/60) jumpInput [groundPlat] restOnGround).velocity.y ≠ JUMP_STRENGTH := by
  norm_num [update, processInput, tryStartGroundPound, get_height_above_ground, heightStep,
    throwGrenade,
    updateTimers, decTimer, updateMovementAndPhysics, handleDashMovement,
    handleGroundPoundMovement, handleLedgeGrabMovement, handleHorizontalMovement,
    stuckResetStep,
    handleJumping, applyGravity, startDash, normalize8, invSqrt2,
    handleCollisionsImproved, horizontalPass, verticalPass, groundSensorPass,
    fixWallPenetration, minOverlap, firstHit, simpleLedgeCheck, handleGroundPoundImpact,
    startGroundPound, updateMovementState, updateVisualEffects, respawn, bodyRect,
    pytrunc, qmod, pyabs, IRect.collides, IRect.right, IRect.bottom, Platform.toRect,
    Platform.right, Platform.bottom, halfW, halfH, GROUND_ACCELERATION, GROUND_FRICTION,
    GROUND_MAX_SPEED, AIR_ACCELERATION, AIR_FRICTION, AIR_MAX_SPEED, JUMP_STRENGTH,
    DOUBLE_JUMP_STRENGTH, GRAVITY, MAX_FALL_SPEED, JUMP_CUT_MULTIPLIER, MIN_JUMP_TIME,
    COLLISION_TOLERANCE, MAX_PENETRATION, COYOTE_TIME, JUMP_BUFFER, WALL_SLIDE_SPEED,
    WALL_JUMP_X_FORCE, WALL_JUMP_Y_FORCE, WALL_JUMP_MOMENTUM_TIME, DASH_SPEED,
    DASH_DURATION, DASH_COOLDOWN, DASH_INVINCIBILITY_TIME, GROUND_POUND_SPEED,
    GROUND_POUND_BOUNCE, GROUND_POUND_MIN_HEIGHT, GROUND_POUND_COOLDOWN,
    GROUND_POUND_SUPER_BOUNCE_MULTIPLIER, GROUND_POUND_SUPER_BOUNCE_BUFFER,
    GROUND_POUND_MOMENTUM_BOOST, GROUND_POUND_MAX_MOMENTUM, WORLD_WIDTH,
    RESPAWN_Y_THRESHOLD, GRENADE_THROW_COOLDOWN, initPlayer, groundPlat, ledgePlat,
    wallPlat, jumpInput, dashInput, jumpRest, restOnGround, frictionState, zeroDtRest,
    fallState, movingRightState, midDashState, gpAirState, Input.neutral,
    MoveInput.neutral, List.find?, List.foldl, min_def, max_def]

/-- C6 (amended): from rest on the floor,
pressing jump sets the jump buffer and the buffered jump executes in the
same tick; one tick later `velocity.y` equals exactly
`JUMP_STRENGTH + GRAVITY * dt` (the jump snaps `velocity.y` to
`JUMP_STRENGTH` and gravity then integrates over the tick), `jumps_used`
is 1 and the player is airborne. -/
theorem jump_scenario_one_tick :
    (update (1/60) jumpInput [groundPlat] restOnGround).velocity.y
        = JUMP_STRENGTH + GRAVITY * (1/60) ∧
    (update (1/60) jumpInput [groundPlat] restOnGround).jump_count = 1 ∧
    (update (1/60) jumpInput [groundPlat] restOnGround).is_on_ground = false := by
  norm_num [update, processInput, tryStartGroundPound, get_height_above_ground, heightStep,
    throwGrenade,
    updateTimers, decTimer, updateMovementAndPhysics, handleDashMovement,
    handleGroundPoundMovement, handleLedgeGrabMovement, handleHorizontalMovement,
    stuckResetStep,
    handleJumping, applyGravity, startDash, normalize8, invSqrt2,
    handleCollisionsImproved, horizontalPass, verticalPass, groundSensorPass,
    fixWallPenetration, minOverlap, firstHit, simpleLedgeCheck, handleGroundPoundImpact,
    startGroundPound, updateMovementState, updateVisualEffects, respawn, bodyRect,
    pytrunc, qmod, pyabs, IRect.collides, IRect.right, IRect.bottom, Platform.toRect,
    Platform.right, Platform.bottom, halfW, halfH, GROUND_ACCELERATION, GROUND_FRICTION,
    GROUND_MAX_SPEED, AIR_ACCELERATION, AIR_FRICTION, AIR_MAX_SPEED, JUMP_STRENGTH,
    DOUBLE_JUMP_STRENGTH, GRAVITY, MAX_FALL_SPEED, JUMP_CUT_MULTIPLIER, MIN_JUMP_TIME,
    COLLISION_TOLERANCE, MAX_PENETRATION, COYOTE_TIME, JUMP_BUFFER, WALL_SLIDE_SPEED,
    WALL_JUMP_X_FORCE, WALL_JUMP_Y_FORCE, WALL_JUMP_MOMENTUM_TIME, DASH_SPEED,
    DASH_DURATION, DASH_COOLDOWN, DASH_INVINCIBILITY_TIME, GROUND_POUND_SPEED,
    GROUND_POUND_BOUNCE, GROUND_POUND_MIN_HEIGHT, GROUND_POUND_COOLDOWN,
    GROUND_POUND_SUPER_BOUNCE_MULTIPLIER, GROUND_POUND_SUPER_BOUNCE_BUFFER,
    GROUND_POUND_MOMENTUM_BOOST, GROUND_POUND_MAX_MOMENTUM, WORLD_WIDTH,
    RESPAWN_Y_THRESHOLD, GRENADE_THROW_COOLDOWN, initPlayer, groundPlat, ledgePlat,
    wallPlat, jumpInput, dashInput, jumpRest, restOnGround, frictionState, zeroDtRest,
    fallState, movingRightState, midDashState, gpAirState, Input.neutral,
    MoveInput.neutral, List.find?, List.foldl, min_def, max_def]

/-- C7 counterexample: moving right into `wallPlat`'s left edge clamps the
position to `left - half_width - COLLISION_TOLERANCE = 293`, one
tolerance unit short of the claimed `left - half_width = 294` (velocity,
wall flag and wall direction behave as claimed). -/
theorem moving_right_clamp_off_by_tolerance :
    (handleCollisionsImproved movingRightState [wallPlat] (1/60)).position.x ≠
        (wallPlat.left : ℚ) - (halfW : ℚ) ∧
    (handleCollisionsImproved movingRightState [wallPlat] (1/60)).position.x =
        (wallPlat.left : ℚ) - (halfW : ℚ) - COLLISION_TOLERANCE ∧
    (handleCollisionsImproved movingRightState [wallPlat] (1/60)).velocity.x = 0 ∧
    (handleCollisionsImproved movingRightState [wallPlat] (1/60)).is_on_wall = true ∧
    (handleCollisionsImproved movingRightState [wallPlat] (1/60)).wall_direction = 1 := by
  norm_num [update, processInput, tryStartGroundPound, get_height_above_ground, heightStep,
    throwGrenade,
    updateTimers, decTimer, updateMovementAndPhysics, handleDashMovement,
    handleGroundPoundMovement, handleLedgeGrabMovement, handleHorizontalMovement,
    stuckResetStep,
    handleJumping, applyGravity, startDash, normalize8, invSqrt2,
    handleCollisionsImproved, horizontalPass, verticalPass, groundSensorPass,
    fixWallPenetration, minOverlap, firstHit, simpleLedgeCheck, handleGroundPoundImpact,
    startGroundPound, updateMovementState, updateVisualEffects, respawn, bodyRect,
    pytrunc, qmod, pyabs, IRect.collides, IRect.right, IRect.bottom, Platform.toRect,
    Platform.right, Platform.bottom, halfW, halfH, GROUND_ACCELERATION, GROUND_FRICTION,
    GROUND_MAX_SPEED, AIR_ACCELERATION, AIR_FRICTION, AIR_MAX_SPEED, JUMP_STRENGTH,
    DOUBLE_JUMP_STRENGTH, GRAVITY, MAX_FALL_SPEED, JUMP_CUT_MULTIPLIER, MIN_JUMP_TIME,
    COLLISION_TOLERANCE, MAX_PENETRATION, COYOTE_TIME, JUMP_BUFFER, WALL_SLIDE_SPEED,
    WALL_JUMP_X_FORCE, WALL_JUMP_Y_FORCE, WALL_JUMP_MOMENTUM_TIME, DASH_SPEED,
    DASH_DURATION, DASH_COOLDOWN, DASH_INVINCIBILITY_TIME, GROUND_POUND_SPEED,
    GROUND_POUND_BOUNCE, GROUND_POUND_MIN_HEIGHT, GROUND_POUND_COOLDOWN,
    GROUND_POUND_SUPER_BOUNCE_MULTIPLIER, GROUND_POUND_SUPER_BOUNCE_BUFFER,
    GROUND_POUND_MOMENTUM_BOOST, GROUND_POUND_MAX_MOMENTUM, WORLD_WIDTH,
    RESPAWN_Y_THRESHOLD, GRENADE_THROW_COOLDOWN, initPlayer, groundPlat, ledgePlat,
    wallPlat, jumpInput, dashInput, jumpRest, restOnGround, frictionState, zeroDtRest,
    fallState, movingRightState, midDashState, gpAirState, Input.neutral,
    MoveInput.neutral, List.find?, List.foldl, min_def, max_def]

/-- C7 (amended): whenever the entity moves right (`velocity.x > 0.1`) and
the swept box at the proposed displacement overlaps the obstacle, the
horizontal resolution clamps `position.x` to exactly
`obstacle.left - half_width - COLLISION_TOLERANCE`, zeroes `velocity.x`
unless mid-dash (mid-dash it is left untouched), sets `is_on_wall` and
sets `wall_direction = 1`. -/
theorem horizontal_collision_right_clamp (s : Player) (p : Platform) (dt : ℚ)
    (hv : (0.1 : ℚ) < s.velocity.x)
    (hc : (bodyRect (qmod (s.position.x + s.velocity.x * dt) WORLD_WIDTH)
        s.position.y).collides p.toRect = true) :
    (horizontalPass s [p] dt).position.x
        = (p.left : ℚ) - (halfW : ℚ) - COLLISION_TOLERANCE ∧
    (s.dash_timer ≤ 0 → (horizontalPass s [p] dt).velocity.x = 0) ∧
    (0 < s.dash_timer → (horizontalPass s [p] dt).velocity.x = s.velocity.x) ∧
    (horizontalPass s [p] dt).is_on_wall = true ∧
    (horizontalPass s [p] dt).wall_direction = 1 := by
  have habs : pyabs s.velocity.x > (0.1 : ℚ) := by
    unfold pyabs
    rw [if_neg (by linarith : ¬s.velocity.x < 0)]
    exact hv
  have hpos : s.velocity.x > 0 := by linarith
  have hfh : firstHit (bodyRect (qmod (s.position.x + s.velocity.x * dt) WORLD_WIDTH)
      s.position.y) [p] = some p := by
    simp [firstHit, List.find?, hc]
  by_cases hd : s.dash_timer ≤ 0
  · refine ⟨?_, fun _ => ?_, fun hlt => absurd hd (by linarith), ?_, ?_⟩ <;>
      simp [horizontalPass, hfh, habs, hpos, hd]
  · refine ⟨?_, fun hle => absurd hle hd, fun _ => ?_, ?_, ?_⟩ <;>
      simp [horizontalPass, hfh, habs, hpos, hd]

/-- C7 witness for the amended clamp: the concrete rightward collision. -/
theorem horizontal_collision_right_clamp_witness :
    (horizontalPass movingRightState [wallPlat] (1/60)).position.x
        = (wallPlat.left : ℚ) - (halfW : ℚ) - COLLISION_TOLERANCE ∧
    (movingRightState.dash_timer ≤ 0 →
      (horizontalPass movingRightState [wallPlat] (1/60)).velocity.x = 0) ∧
    (0 < movingRightState.dash_timer →
      (horizontalPass movingRightState [wallPlat] (1/60)).velocity.x
        = movingRightState.velocity.x) ∧
    (horizontalPass movingRightState [wallPlat] (1/60)).is_on_wall = true ∧
    (horizontalPass movingRightState [wallPlat] (1/60)).wall_direction = 1 :=
  horizontal_collision_right_clamp movingRightState wallPlat (1/60)
    (by norm_num [movingRightState, initPlayer])
    (by norm_num [bodyRect, qmod, pytrunc, IRect.collides, IRect.right, IRect.bottom,
      Platform.toRect, Platform.right, Platform.bottom, halfW, halfH, WORLD_WIDTH,
      movingRightState, initPlayer, wallPlat])

/-- C8 counterexample: respawning a mid-dash player leaves `dash_timer` at
`DASH_DURATION` instead of restoring the 0 default of a fresh player, so
respawn does not perform the claimed full timer/ability reset. -/
theorem respawn_keeps_dash_timer :
    (respawn midDashState).dash_timer = DASH_DURATION ∧
    (initPlayer 100 100).dash_timer = 0 ∧
    DASH_DURATION ≠ 0 := by
  refine ⟨rfl, rfl, ?_⟩
  norm_num [DASH_DURATION]

/-- C8 (amended): for every prior state, respawn restores position to the
exact stored spawn coordinate, sets velocity to (0, 0), restores health
and grenades to maximum, clears `is_on_ground`, `is_ground_pounding`, the
dash/grenade/ground-pound cooldowns, the movement lock and the stuck
timer — but leaves the remaining ability timers and flags (dash timer,
invincibility, jump buffer, coyote time, jump count, ledge and
super-bounce state) untouched, so the reset is not the claimed full
timer/ability reset. -/
theorem respawn_restores_core_state (s : Player) :
    (respawn s).position = s.spawn_position ∧
    (respawn s).velocity = ⟨0, 0⟩ ∧
    (respawn s).health = s.max_health ∧
    (respawn s).remaining_grenades = s.max_grenades ∧
    (respawn s).is_on_ground = false ∧
    (respawn s).is_ground_pounding = false ∧
    (respawn s).dash_cooldown_timer = 0 ∧
    (respawn s).grenade_cooldown_timer = 0 ∧
    (respawn s).ground_pound_cooldown_timer = 0 ∧
    (respawn s).movement_locked = false ∧
    (respawn s).stuck_detection_timer = 0 ∧
    (respawn s).dash_timer = s.dash_timer ∧
    (respawn s).invincibility_timer = s.invincibility_timer ∧
    (respawn s).is_invincible = s.is_invincible ∧
    (respawn s).jump_buffer_timer = s.jump_buffer_timer ∧
    (respawn s).coyote_time_remaining = s.coyote_time_remaining ∧
    (respawn s).jump_count = s.jump_count ∧
    (respawn s).is_grabbing_ledge = s.is_grabbing_ledge ∧
    (respawn s).ledge_grab_timer = s.ledge_grab_timer ∧
    (respawn s).ground_pound_super_bounce_buffer = s.ground_pound_super_bounce_buffer :=
  ⟨rfl, rfl, rfl, rfl, rfl, rfl, rfl, rfl, rfl, rfl, rfl, rfl, rfl, rfl, rfl, rfl,
   rfl, rfl, rfl, rfl⟩

/-- C9 counterexample: with `dt = 0` and a neutral input snapshot, a tick
still multiplies leftover horizontal velocity by the friction factor
(100 becomes 88), so the zero-elapsed-time update is not the identity on
velocity. -/
theorem zero_dt_friction_changes_velocity :
    (update 0 Input.neutral [groundPlat] frictionState).velocity.x = 88 ∧
    frictionState.velocity.x = 100 ∧
    (update 0 Input.neutral [groundPlat] frictionState).position = frictionState.position := by
  norm_num [update, processInput, tryStartGroundPound, get_height_above_ground, heightStep,
    throwGrenade,
    updateTimers, decTimer, updateMovementAndPhysics, handleDashMovement,
    handleGroundPoundMovement, handleLedgeGrabMovement, handleHorizontalMovement,
    stuckResetStep,
    handleJumping, applyGravity, startDash, normalize8, invSqrt2,
    handleCollisionsImproved, horizontalPass, verticalPass, groundSensorPass,
    fixWallPenetration, minOverlap, firstHit, simpleLedgeCheck, handleGroundPoundImpact,
    startGroundPound, updateMovementState, updateVisualEffects, respawn, bodyRect,
    pytrunc, qmod, pyabs, IRect.collides, IRect.right, IRect.bottom, Platform.toRect,
    Platform.right, Platform.bottom, halfW, halfH, GROUND_ACCELERATION, GROUND_FRICTION,
    GROUND_MAX_SPEED, AIR_ACCELERATION, AIR_FRICTION, AIR_MAX_SPEED, JUMP_STRENGTH,
    DOUBLE_JUMP_STRENGTH, GRAVITY, MAX_FALL_SPEED, JUMP_CUT_MULTIPLIER, MIN_JUMP_TIME,
    COLLISION_TOLERANCE, MAX_PENETRATION, COYOTE_TIME, JUMP_BUFFER, WALL_SLIDE_SPEED,
    WALL_JUMP_X_FORCE, WALL_JUMP_Y_FORCE, WALL_JUMP_MOMENTUM_TIME, DASH_SPEED,
    DASH_DURATION, DASH_COOLDOWN, DASH_INVINCIBILITY_TIME, GROUND_POUND_SPEED,
    GROUND_POUND_BOUNCE, GROUND_POUND_MIN_HEIGHT, GROUND_POUND_COOLDOWN,
    GROUND_POUND_SUPER_BOUNCE_MULTIPLIER, GROUND_POUND_SUPER_BOUNCE_BUFFER,
    GROUND_POUND_MOMENTUM_BOOST, GROUND_POUND_MAX_MOMENTUM, WORLD_WIDTH,
    RESPAWN_Y_THRESHOLD, GRENADE_THROW_COOLDOWN, initPlayer, groundPlat, ledgePlat,
    wallPlat, jumpInput, dashInput, jumpRest, restOnGround, frictionState, zeroDtRest,
    fallState, movingRightState, midDashState, gpAirState, Input.neutral,
    MoveInput.neutral, List.find?, List.foldl, min_def, max_def, Vec2.mk.injEq, Prod.ext_iff]

/-- C9 (amended): zero-`dt` idempotence does not hold for every state
(friction is applied per call, see the counterexample); it does hold for
a canonical resting state: a player standing at rest with consistent
flags is an exact fixed point of the update with `dt = 0` and neutral
input, so any number of zero-`dt` calls leaves every field unchanged. -/
theorem zero_dt_rest_fixed_point (n : ℕ) :
    (update 0 Input.neutral [groundPlat])^[n] zeroDtRest = zeroDtRest := by
  have h : update 0 Input.neutral [groundPlat] zeroDtRest = zeroDtRest := by
    norm_num [update, processInput, tryStartGroundPound, get_height_above_ground, heightStep,
    throwGrenade,
    updateTimers, decTimer, updateMovementAndPhysics, handleDashMovement,
    handleGroundPoundMovement, handleLedgeGrabMovement, handleHorizontalMovement,
    stuckResetStep,
    handleJumping, applyGravity, startDash, normalize8, invSqrt2,
    handleCollisionsImproved, horizontalPass, verticalPass, groundSensorPass,
    fixWallPenetration, minOverlap, firstHit, simpleLedgeCheck, handleGroundPoundImpact,
    startGroundPound, updateMovementState, updateVisualEffects, respawn, bodyRect,
    pytrunc, qmod, pyabs, IRect.collides, IRect.right, IRect.bottom, Platform.toRect,
    Platform.right, Platform.bottom, halfW, halfH, GROUND_ACCELERATION, GROUND_FRICTION,
    GROUND_MAX_SPEED, AIR_ACCELERATION, AIR_FRICTION, AIR_MAX_SPEED, JUMP_STRENGTH,
    DOUBLE_JUMP_STRENGTH, GRAVITY, MAX_FALL_SPEED, JUMP_CUT_MULTIPLIER, MIN_JUMP_TIME,
    COLLISION_TOLERANCE, MAX_PENETRATION, COYOTE_TIME, JUMP_BUFFER, WALL_SLIDE_SPEED,
    WALL_JUMP_X_FORCE, WALL_JUMP_Y_FORCE, WALL_JUMP_MOMENTUM_TIME, DASH_SPEED,
    DASH_DURATION, DASH_COOLDOWN, DASH_INVINCIBILITY_TIME, GROUND_POUND_SPEED,
    GROUND_POUND_BOUNCE, GROUND_POUND_MIN_HEIGHT, GROUND_POUND_COOLDOWN,
    GROUND_POUND_SUPER_BOUNCE_MULTIPLIER, GROUND_POUND_SUPER_BOUNCE_BUFFER,
    GROUND_POUND_MOMENTUM_BOOST, GROUND_POUND_MAX_MOMENTUM, WORLD_WIDTH,
    RESPAWN_Y_THRESHOLD, GRENADE_THROW_COOLDOWN, initPlayer, groundPlat, ledgePlat,
    wallPlat, jumpInput, dashInput, jumpRest, restOnGround, frictionState, zeroDtRest,
    fallState, movingRightState, midDashState, gpAirState, Input.neutral,
    MoveInput.neutral, List.find?, List.foldl, min_def, max_def, Player.mk.injEq, Vec2.mk.injEq, MoveInput.mk.injEq]
  exact Function.iterate_fixed h n

/-- C10: when no platform's horizontal span (with the 50-unit margin)
covers the player's x with top edge at or below the player — in
particular over a gap or with no platforms at all —
`get_height_above_ground` returns 0, and a ground-pound press is then a
no-op for every player state. -/
theorem gap_height_zero_and_noop (s : Player) (platforms : List Platform)
    (h : ∀ p ∈ platforms,
      ¬(s.position.x ≥ (p.left : ℚ) - 50 ∧ s.position.x ≤ (p.right : ℚ) + 50 ∧
        s.position.y ≤ (p.top : ℚ))) :
    get_height_above_ground s.position platforms = 0 ∧
    tryStartGroundPound s platforms = s := by
  have h0 : get_height_above_ground s.position platforms = 0 :=
    height_fold_none s.position platforms h
  refine ⟨h0, ?_⟩
  unfold tryStartGroundPound
  split_ifs with h1 h2 h3 h4
  · rfl
  · rfl
  · rfl
  · rfl
  · exfalso
    rw [h0] at h4
    exact h4 (by norm_num [GROUND_POUND_MIN_HEIGHT])

/-- C10 witness: a falling player over the empty platform set. -/
theorem gap_height_zero_and_noop_witness :
    get_height_above_ground fallState.position [] = 0 ∧
    tryStartGroundPound fallState [] = fallState :=
  gap_height_zero_and_noop fallState [] (by intro p hp; cases hp)

end Main

namespace G3

/-- Helper: the landing-detection block resets the jump count and the
coyote timer whenever it reports a grounded state that was airborne. -/
theorem landingStep_resets (t : RPlayer)
    (h : (landingStep t).on_ground = true)
    (h2 : (landingStep t).was_on_ground = false) :
    (landingStep t).jumps_used = 0 ∧ (landingStep t).grounded_timer = 0 := by
  unfold landingStep at h h2 ⊢
  by_cases hc : t.on_ground = true ∧ ¬t.was_on_ground = true
  · rw [if_pos hc]
    exact ⟨rfl, rfl⟩
  · rw [if_neg hc] at h h2
    dsimp only at h h2
    exact absurd ⟨h, by simp [h2]⟩ hc

/-- C5: on every tick of the responsive controller that ends with the
player grounded after being airborne before the collision pass (a
landing), `jumps_used` is reset to 0 and the coyote timer
(`grounded_timer`, counting time since grounding) is reset to 0,
regardless of the prior state. -/
theorem landing_resets_jumps_and_coyote (dt : ℚ) (platforms : List Platform)
    (buf : InputBuffer) (s : RPlayer)
    (hg : (update dt platforms buf s).1.on_ground = true)
    (hw : (update dt platforms buf s).1.was_on_ground = false) :
    (update dt platforms buf s).1.jumps_used = 0 ∧
    (update dt platforms buf s).1.grounded_timer = 0 := by
  unfold update at *
  exact landingStep_resets _ hg hw

/-- C5 witness: a falling player with both jumps used lands on the
bottom-of-screen ground and has jumps and coyote timer reset. -/
theorem landing_resets_jumps_and_coyote_witness :
    (update (1/60) [] ⟨0, 0⟩ g3FallState).1.jumps_used = 0 ∧
    (update (1/60) [] ⟨0, 0⟩ g3FallState).1.grounded_timer = 0 :=
  landing_resets_jumps_and_coyote (1/60) [] ⟨0, 0⟩ g3FallState
    (by norm_num [update, timersStep, dashEndStep, iframesStep, gravityStep, wallSlideStep,
      wallJumpStep, landingStep, moveAndCollide, InputBuffer.consumeJump,
      InputBuffer.step, RPlayer.rect, IRect.collides, IRect.right, IRect.bottom,
      Platform.toRect, Platform.right, Platform.bottom, pytrunc, pyabs, GRAVITY,
      MAX_FALL_SPEED, WALL_SLIDE_SPEED, WALL_JUMP_X_FORCE, WALL_JUMP_Y_FORCE,
      SCREEN_WIDTH, SCREEN_HEIGHT, g3FallState, initRPlayer, List.foldl, min_def, max_def])
    (by norm_num [update, timersStep, dashEndStep, iframesStep, gravityStep, wallSlideStep,
      wallJumpStep, landingStep, moveAndCollide, InputBuffer.consumeJump,
      InputBuffer.step, RPlayer.rect, IRect.collides, IRect.right, IRect.bottom,
      Platform.toRect, Platform.right, Platform.bottom, pytrunc, pyabs, GRAVITY,
      MAX_FALL_SPEED, WALL_SLIDE_SPEED, WALL_JUMP_X_FORCE, WALL_JUMP_Y_FORCE,
      SCREEN_WIDTH, SCREEN_HEIGHT, g3FallState, initRPlayer, List.foldl, min_def, max_def])

end G3

end FunnyPlatform
